import Mathlib

/-!
Shallow embedding of `AviaxMusic/platforms/Youtube.py` (class `YouTubeAPI`).

External collaborators (the search-index library, yt-dlp, the proxy mirror
HTTP API, the filesystem and the clock) are modelled as oracle inputs
gathered in environment structures; the module s own control flow —
normalization, the fallback chain, the try/except structure — is embedded
faithfully.  A Python exception is an `Except` error carrying a `PyExc`
value; a `try/except` is `pyTryCatch`.
-/

namespace AviaxYoutube

/-- A Python exception, as far as `Youtube.py` distinguishes them:
`yt_dlp.utils.ExtractorError` is caught by a dedicated clause, everything
else only by `except Exception`.  The payload is `str(e)`. -/
inductive PyExc where
  | extractor (msg : String)
  | general (msg : String)
deriving DecidableEq

/-- `str(e)` of an exception. -/
def PyExc.msg : PyExc → String
  | .extractor m => m
  | .general m => m

/-- `try: body except Exception as e: handler(e)`. -/
def pyTryCatch {α : Type} (body : Except PyExc α) (handler : PyExc → Except PyExc α) :
    Except PyExc α :=
  match body with
  | .ok a => .ok a
  | .error e => handler e

/-- `self.base_url` — the canonical watch-URL base. -/
def base_url : String := "https://www.youtube.com/watch?v="

/-- `self.playlist_base`. -/
def playlist_base : String := "https://youtube.com/playlist?list="

/-- `self.invidious_instances` — the fixed ordered list of mirror bases. -/
def invidious_instances : List String :=
  ["https://yewtu.be",
   "https://inv.odyssey346.dev",
   "https://invidious.flokinet.to",
   "https://vid.puffyan.us",
   "https://inv.tux.pizza"]

/-- Does `sub` occur in `cs`?  Structural substring test (kept structural
so that the kernel can evaluate it). -/
def containsSub (sub : List Char) : List Char → Bool
  | [] => List.isPrefixOf sub []
  | c :: rest => List.isPrefixOf sub (c :: rest) || containsSub sub rest

/-- Python `sub in s` for strings (membership test used on `"&" in link`
and `"Sign in" in str(e)`). -/
def strContains (s sub : String) : Bool :=
  containsSub sub.data s.data

/-- The prefix of `cs` strictly before the first occurrence of `sub`
(all of `cs` when `sub` does not occur). -/
def takeUntilSub (sub : List Char) : List Char → List Char
  | [] => []
  | c :: rest =>
      if List.isPrefixOf sub (c :: rest) then [] else c :: takeUntilSub sub rest

/-- Python `s.split(sep)[0]` for a nonempty separator. -/
def pySplitHead (s sep : String) : String :=
  String.mk (takeUntilSub sep.data s.data)

/-- `if "&" in link: link = link.split("&")[0]`. -/
def stripAmp (link : String) : String :=
  if strContains link "&" then pySplitHead link "&" else link

/-- `if videoid: link = self.base_url + link` followed by the `&`-strip,
as performed by `details`, `video` and `download`. -/
def normalizeLink (link : String) (videoid : Bool) : String :=
  stripAmp (if videoid then base_url ++ link else link)

/-- `if videoid: link = self.playlist_base + link` followed by the
`&`-strip, as performed by `playlist`. -/
def normalizePlaylistLink (link : String) (videoid : Bool) : String :=
  stripAmp (if videoid then playlist_base ++ link else link)

/-- Python `f"{x}"` for a value that may be `None`. -/
def pyStrOfOpt : Option String → String
  | none => "None"
  | some s => s

/-! ### urllib.parse.quote -/

/-- Upper-case hexadecimal digit of `n < 16`. -/
def hexDigit (n : Nat) : Char :=
  if n < 10 then Char.ofNat (48 + n) else Char.ofNat (55 + n)

/-- UTF-8 encoding of one character, as byte values. -/
def utf8Bytes (c : Char) : List Nat :=
  let n := c.toNat
  if n < 128 then [n]
  else if n < 2048 then [192 + n / 64, 128 + n % 64]
  else if n < 65536 then [224 + n / 4096, 128 + (n / 64) % 64, 128 + n % 64]
  else [240 + n / 262144, 128 + (n / 4096) % 64, 128 + (n / 64) % 64, 128 + n % 64]

/-- Is `c` left unescaped by `urllib.parse.quote` with the default safe
set (unreserved characters plus the slash)? -/
def quoteSafe (c : Char) : Bool :=
  c.isAlphanum || c = '_' || c = '.' || c = '-' || c = '~' || c = '/'

/-- Percent-escape one character. -/
def quoteChar (c : Char) : String :=
  if quoteSafe c then String.singleton c
  else (utf8Bytes c).foldl
    (fun acc b => acc ++ "%" ++ String.singleton (hexDigit (b / 16))
      ++ String.singleton (hexDigit (b % 16))) ""

/-- Model of urllib.parse.quote with its default safe set. -/
def pyQuote (s : String) : String :=
  s.data.foldl (fun acc c => acc ++ quoteChar c) ""

/-! ### The VideoRef-shaped result dictionary -/

/-- Value stored under the duration key: the search path stores the raw
(possibly `None`) duration string, the yt-dlp and proxy paths store a
number of seconds. -/
inductive DurVal where
  | str (s : Option String)
  | nat (n : Nat)
deriving DecidableEq

/-- The dictionary `details` returns on success (the VideoRef shape).
`id` is `Option` because the proxy path can propagate a missing
`videoId`. -/
structure DDict where
  title : String
  duration : DurVal
  duration_sec : Nat
  thumbnail : String
  id : Option String
  url : String
deriving DecidableEq

/-! ### Primary tier: VideosSearch -/

/-- One result object of the search-index library: the fields `details`
reads. -/
structure SearchResult where
  title : String
  duration : Option String
  thumbnails : List String
  id : String
  link : String
deriving DecidableEq

/-- Outcome of `VideosSearch(link, limit=1)` + `(await results.next())["result"]`. -/
inductive SearchOutcome where
  | raises (e : PyExc)
  | results (rs : List SearchResult)

/-- `str(duration_min) == "None"`: true for `None` and for the literal
string `"None"`. -/
def durIsNoneStr : Option String → Bool
  | none => true
  | some s => s == "None"

/-- Body of the `try` around the VideosSearch lookup.  The loop body
returns on its first iteration; an empty result list falls through with
no exception.  With a set duration string the `duration_sec` entry
evaluates `int(time_to_seconds(duration_min))`, and `time_to_seconds` is
neither defined nor imported anywhere in `Youtube.py`, so that entry
raises `NameError`; an empty thumbnail list raises `IndexError` on
`result["thumbnails"][0]`. -/
def primaryBody (o : SearchOutcome) : Except PyExc (Option DDict) :=
  match o with
  | .raises e => .error e
  | .results [] => .ok none
  | .results (r :: _) =>
      if durIsNoneStr r.duration then
        match r.thumbnails with
        | [] => .error (.general "list index out of range")
        | t :: _ =>
            .ok (some { title := r.title, duration := .str r.duration, duration_sec := 0,
                        thumbnail := pySplitHead t "?", id := some r.id, url := r.link })
      else .error (.general "NameError: time_to_seconds is not defined")

/-- The VideosSearch `try/except`: any exception is logged and control
falls through to the yt-dlp tier. -/
def primaryAttempt (o : SearchOutcome) : Option DDict :=
  match primaryBody o with
  | .ok v => v
  | .error _ => none

/-! ### Secondary tier: yt-dlp -/

/-- The fields of a yt-dlp info object that `details` reads. -/
structure YEntry where
  title : Option String
  duration : Option Nat
  thumbnail : Option String
  id : String
deriving DecidableEq

/-- A top-level yt-dlp info object: `entries = none` models a dict with no
entries key (then the fields of the object itself are used); `some []`
models a present but empty or non-list entries value. -/
structure YInfo where
  entries : Option (List YEntry)
  top : YEntry

/-- Outcome of `ydl.extract_info(link, download=False)` in `details`:
either it raises, or it returns a value (`none` models a falsy info). -/
inductive YdlOutcome where
  | raises (e : PyExc)
  | info (i : Option YInfo)

/-- The entries handling: the first entry replaces the info object when a nonempty
list is present, `raise Exception("No entries found")` when present but
empty (or not a list), the object itself otherwise. -/
def ydlEntry (i : YInfo) : Except PyExc YEntry :=
  match i.entries with
  | none => .ok i.top
  | some [] => .error (.general "No entries found")
  | some (e :: _) => .ok e

/-- Mapping of a yt-dlp info object into the VideoRef shape
with a falsy stored thumbnail — missing or empty — replaced by the one
synthesized from the ID by the fixed i.ytimg.com template. -/
def mapYdl (e : YEntry) : DDict :=
  let d := e.duration.getD 0
  let synth := "https://i.ytimg.com/vi/" ++ e.id ++ "/hqdefault.jpg"
  { title := e.title.getD "Unknown Title",
    duration := .nat d,
    duration_sec := d,
    thumbnail := match e.thumbnail with
      | some t => if t = "" then synth else t
      | none => synth,
    id := some e.id,
    url := base_url ++ e.id }

/-- Body of the yt-dlp `try` in `details`. -/
def ydlAttempt (o : YdlOutcome) : Except PyExc (Option DDict × String) :=
  match o with
  | .raises e => .error e
  | .info none => .error (.general "No info returned")
  | .info (some i) =>
      match ydlEntry i with
      | .error e => .error e
      | .ok e => .ok (some (mapYdl e), "")

/-! ### Proxy tier: the Invidious mirrors -/

/-- One entry of the JSON search response of a mirror: the keys
`_get_from_invidious` reads, each possibly absent. -/
structure IEntry where
  type : Option String
  videoId : Option String
  title : Option String
  lengthSeconds : Option Nat
deriving DecidableEq

/-- Outcome of one mirror request: an exception anywhere in the block
(connection, timeout, JSON decode), a non-200 status, or a parsed body
(`none` models a JSON value that is not a list). -/
inductive MirrorResp where
  | err
  | notOk
  | ok (body : Option (List IEntry))

/-- The request URL for one mirror base. -/
def mirrorUrl (base query : String) : String :=
  base ++ "/api/v1/search?q=" ++ pyQuote query

/-- The dictionary `_get_from_invidious` returns. -/
structure IMapped where
  id : Option String
  title : String
  duration : Nat
  thumbnail : String
  url : String
deriving DecidableEq

/-- The first response entry whose type field equals video, guarded
by `if results and isinstance(results, list)`. -/
def usableVideo (r : MirrorResp) : Option IEntry :=
  match r with
  | .ok (some rs) =>
      if rs.isEmpty then none
      else rs.find? (fun v => v.type == some "video")
  | _ => none

/-- Mapping of a usable mirror entry (thumbnail synthesized from the ID by
the fixed `i.ytimg.com` template; a missing `videoId` renders as the
f-string text `None`). -/
def mapIEntry (v : IEntry) : IMapped :=
  { id := v.videoId,
    title := v.title.getD "Unknown Title",
    duration := v.lengthSeconds.getD 0,
    thumbnail := "https://i.ytimg.com/vi/" ++ pyStrOfOpt v.videoId ++ "/hqdefault.jpg",
    url := base_url ++ pyStrOfOpt v.videoId }

/-- The loop over `invidious_instances`: the block of each mirror
is wrapped in its own `try/except`, so a failing or useless mirror is
skipped and the loop continues. -/
def invidiousLoop (resp : String → MirrorResp) (query : String) :
    List String → Option IMapped
  | [] => none
  | base :: rest =>
      match usableVideo (resp (mirrorUrl base query)) with
      | some v => some (mapIEntry v)
      | none => invidiousLoop resp query rest

/-- `_get_from_invidious(query)`. -/
def getFromInvidious (resp : String → MirrorResp) (query : String) : Option IMapped :=
  invidiousLoop resp query invidious_instances

/-! ### details -/

/-- Oracles for one `details` call: the search-index outcome and the
yt-dlp outcome keyed by the link they are invoked on, the mirror
responses keyed by request URL. -/
structure DetailsEnv where
  search : String → SearchOutcome
  ydl : String → YdlOutcome
  mirror : String → MirrorResp

/-- Mapping of a proxy-fallback dictionary into the VideoRef shape
returned by `details`. -/
def mapFallback (fb : IMapped) : DDict :=
  { title := fb.title, duration := .nat fb.duration, duration_sec := fb.duration,
    thumbnail := fb.thumbnail, id := fb.id, url := fb.url }

/-- The two `except` clauses of the yt-dlp `try` in `details`: the
`ExtractorError` clause consults the proxy tier when the message contains
`"Sign in"`, every other exception becomes `(None, f"Error: {e}")`. -/
def detailsHandler (mirror : String → MirrorResp) (link : String) (e : PyExc) :
    Except PyExc (Option DDict × String) :=
  match e with
  | .extractor msg =>
      if strContains msg "Sign in" then
        match getFromInvidious mirror link with
        | some fb => .ok (some (mapFallback fb), "")
        | none => .ok (none, "Extraction failed: " ++ msg)
      else .ok (none, "Extraction failed: " ++ msg)
  | .general msg => .ok (none, "Error: " ++ msg)

/-- The body of `details` after normalization: primary tier, then the
yt-dlp `try/except` with its fallback handler. -/
def detailsCore (env : DetailsEnv) (link : String) : Except PyExc (Option DDict × String) :=
  match primaryAttempt (env.search link) with
  | some d => .ok (some d, "")
  | none => pyTryCatch (ydlAttempt (env.ydl link)) (detailsHandler env.mirror link)

/-- The outer `try/except` of `details`, applied to an already-normalized
link. -/
def detailsRun (env : DetailsEnv) (link : String) : Except PyExc (Option DDict × String) :=
  pyTryCatch (detailsCore env link)
    (fun e => .ok (none, "Failed to process query: " ++ e.msg))

/-- `details(link, videoid)`. -/
def details (env : DetailsEnv) (link : String) (videoid : Bool) :
    Except PyExc (Option DDict × String) :=
  detailsRun env (normalizeLink link videoid)

/-! ### exists: the URL regex -/

/-- `[^&=%\?]` — the character class of the 11-character ID group. -/
def idChar (c : Char) : Bool :=
  !(c = '&' || c = '=' || c = '%' || c = '?')

/-- `([^&=%\?]{11})` followed by anything (`re.search` needs no anchored
end). -/
def matchId11 (cs : List Char) : Bool :=
  decide (11 ≤ cs.length) && (cs.take 11).all idChar

/-- Consume the literal `lit` if it heads `cs`. -/
def eatLit (lit : String) (cs : List Char) : Option (List Char) :=
  if List.isPrefixOf lit.data cs then some (cs.drop lit.data.length) else none

/-- The `.+\?v=` alternative of the optional fourth group: one or more
non-newline characters, then `?v=`, then the ID group. -/
def dotPlusAlt (cs : List Char) : Bool :=
  (List.range cs.length).any fun j =>
    let k := j + 1
    ((cs.take k).all (fun c => !(c = '\n'))) &&
    (match eatLit "?v=" (cs.drop k) with
     | some r => matchId11 r
     | none => false)

/-- `(watch\?v=|embed/|v/|.+\?v=)?([^&=%\?]{11})`. -/
def matchTail4 (cs : List Char) : Bool :=
  (match eatLit "watch?v=" cs with | some r => matchId11 r | none => false) ||
  (match eatLit "embed/" cs with | some r => matchId11 r | none => false) ||
  (match eatLit "v/" cs with | some r => matchId11 r | none => false) ||
  dotPlusAlt cs ||
  matchId11 cs

/-- `(youtube\.com|youtu\.be)/` then the tail. -/
def matchFromHost (cs : List Char) : Bool :=
  (match eatLit "youtube.com/" cs with | some r => matchTail4 r | none => false) ||
  (match eatLit "youtu.be/" cs with | some r => matchTail4 r | none => false)

/-- `(www\.)?` then the host. -/
def matchFromWww (cs : List Char) : Bool :=
  (match eatLit "www." cs with | some r => matchFromHost r | none => false) ||
  matchFromHost cs

/-- A match of `self.url_regex` starting exactly at `cs`. -/
def matchHere (cs : List Char) : Bool :=
  (match eatLit "https://" cs with | some r => matchFromWww r | none => false) ||
  (match eatLit "http://" cs with | some r => matchFromWww r | none => false) ||
  matchFromWww cs

/-- `re.search(self.url_regex, link)` viewed as a boolean: a match starts
at some position of the string. -/
def urlRegexSearch (s : String) : Bool :=
  (List.range (s.data.length + 1)).any fun i => matchHere (s.data.drop i)

/-- `exists(link, videoid)`: pure validation, no oracle input at all. -/
def existsLink (link : String) (videoid : Bool) : Bool :=
  urlRegexSearch (if videoid then base_url ++ link else link)

/-! ### video -/

/-- The part of a yt-dlp info object `video` reads: its url key
(possibly absent). -/
structure VInfo where
  url : Option String

/-- Oracle for one `video` call: the yt-dlp outcome keyed by the link
(`none` models a falsy info object). -/
structure VideoEnv where
  ydl : String → Except PyExc (Option VInfo)

/-- The body of `video` on an already-normalized link:
a falsy info object or a falsy url field yields the error tuple,
otherwise the stream URL with an empty error. -/
def videoRun (env : VideoEnv) (link : String) : Except PyExc (Option String × String) :=
  pyTryCatch
    (match env.ydl link with
     | .error e => .error e
     | .ok none => .ok (none, "No stream URL available")
     | .ok (some i) =>
         match i.url with
         | none => .ok (none, "No stream URL available")
         | some u => if u = "" then .ok (none, "No stream URL available") else .ok (some u, ""))
    (fun e => .ok (none, "Error getting stream URL: " ++ e.msg))

/-- `video(link, videoid)`. -/
def video (env : VideoEnv) (link : String) (videoid : Bool) :
    Except PyExc (Option String × String) :=
  videoRun env (normalizeLink link videoid)

/-! ### playlist -/

/-- One flat-extracted playlist entry: its id key as the guarded get
sees it. -/
structure PEntry where
  id : Option String
deriving DecidableEq

/-- A flat-extraction info object: `entries = none` models a missing or
missing entries value. -/
structure PInfo where
  entries : Option (List PEntry)

/-- Oracle for one `playlist` call: the flat extractor outcome keyed by
link and by the `playlistend` cap passed in the options. -/
structure PlaylistEnv where
  extract : String → Nat → Except PyExc (Option PInfo)

/-- The guarded ID of one entry: the comprehension filter keeps an entry
whose id key holds a truthy value (so a missing or empty-string ID is
skipped) and contributes that value. -/
def pickId : PEntry → Option String
  | ⟨some s⟩ => if s = "" then none else some s
  | ⟨none⟩ => none

/-- The id-collecting comprehension of `playlist`. -/
def entryIds (es : List PEntry) : List String :=
  es.filterMap pickId

/-- The body of `playlist` on an already-normalized link; any exception is
caught and becomes the empty list. -/
def playlistRun (env : PlaylistEnv) (link : String) (limit : Nat) :
    Except PyExc (List String) :=
  pyTryCatch
    (match env.extract link limit with
     | .error e => .error e
     | .ok none => .ok []
     | .ok (some i) =>
         match i.entries with
         | none => .ok []
         | some [] => .ok []
         | some es => .ok (entryIds es))
    (fun _ => .ok [])

/-- `playlist(link, limit, user_id, videoid)` (`user_id` is accepted and
unused, as in the source). -/
def playlist (env : PlaylistEnv) (link : String) (limit : Nat) (user_id : Int)
    (videoid : Bool) : Except PyExc (List String) :=
  playlistRun env (normalizePlaylistLink link videoid) limit

/-! ### download -/

/-- `os.path.splitext` on the last path component: the root part, the
extension starting at the last dot provided a non-dot character precedes
it within the component. -/
def splitextComp (b : List Char) : List Char :=
  match b.reverse.findIdx? (· = '.') with
  | none => b
  | some ri =>
      let i := b.length - 1 - ri
      if (b.take i).any (fun c => !(c = '.')) then b.take i else b

/-- `os.path.splitext(p)[0]`: the extension is looked for in the part of
the path after the last slash. -/
def splitextBase (p : String) : String :=
  let cs := p.data
  let revBase := cs.reverse.takeWhile (fun c => !(c = '/'))
  String.mk (cs.take (cs.length - revBase.length) ++ splitextComp revBase.reverse)

/-- The value `download` returns: a bare path (snippet modes) or a
`(path, True)` pair. -/
inductive DlRet where
  | plain (path : String)
  | withFlag (path : String) (ok : Bool)
deriving DecidableEq

/-- Oracles for one `download` call.  `extract audioOnly link` is
`extract_info(link, download=False)` composed with `prepare_filename`
under the audio or video option set; `exists1` is `os.path.exists` as
queried before any download; `run link` is `ydl.download([link])`.  The
conditional `os.rename` after a default-audio download only moves the
raw file to the mp3 path on disk and contributes nothing to the returned
value, so it needs no oracle. -/
structure DownloadEnv where
  extract : Bool → String → Except PyExc String
  exists1 : String → Bool
  run : String → Except PyExc Unit

/-- The body of `download` on an already-normalized link, paired with
whether `ydl.download` was invoked.  Mode precedence follows the source:
`songvideo`, then `songaudio`, then `video`, else default audio. -/
def downloadRun (env : DownloadEnv) (link : String)
    (videoFlag songaudio songvideo : Bool) (title : Option String) :
    Except PyExc (DlRet × Bool) :=
  if songvideo then
    match env.run link with
    | .error e => .error e
    | .ok _ => .ok (.plain ("downloads/" ++ pyStrOfOpt title ++ ".mp4"), true)
  else if songaudio then
    match env.run link with
    | .error e => .error e
    | .ok _ => .ok (.plain ("downloads/" ++ pyStrOfOpt title ++ ".mp3"), true)
  else if videoFlag then
    match env.extract false link with
    | .error e => .error e
    | .ok path =>
        if env.exists1 path then .ok (.withFlag path true, false)
        else
          match env.run link with
          | .error e => .error e
          | .ok _ => .ok (.withFlag path true, true)
  else
    match env.extract true link with
    | .error e => .error e
    | .ok path =>
        let mp3 := splitextBase path ++ ".mp3"
        if env.exists1 mp3 then .ok (.withFlag mp3 true, false)
        else
          match env.run link with
          | .error e => .error e
          | .ok _ => .ok (.withFlag mp3 true, true)

/-- `download(link, ...)`: normalization, the four modes, and the
catch-all that re-raises `Exception(f"Download failed: {e}")`. -/
def download (env : DownloadEnv) (link : String)
    (videoFlag videoid songaudio songvideo : Bool)
    (format_id title : Option String) : Except PyExc (DlRet × Bool) :=
  pyTryCatch
    (downloadRun env (normalizeLink link videoid) videoFlag songaudio songvideo title)
    (fun e => .error (.general ("Download failed: " ++ e.msg)))

/-! ### The rate limiter -/

/-- `self.last_request` and `self.request_delay`.  Clock readings and the
random draw are explicit inputs; time is ℚ. -/
structure RLState where
  last_request : ℚ
  request_delay : ℚ

/-- The duration `asyncio.sleep` is invoked with (0 when no sleep
happens): `elapsed = now - last_request; if elapsed < request_delay:
sleep(request_delay - elapsed)`. -/
def rlSleep (st : RLState) (now : ℚ) : ℚ :=
  if now - st.last_request < st.request_delay then st.request_delay - (now - st.last_request)
  else 0

/-- The instant at which the caller resumes after the sleep in `_rate_limit`. -/
def rlResume (st : RLState) (now : ℚ) : ℚ :=
  now + rlSleep st now

/-- The state after `_rate_limit`: `last_request = time.time()` read after
the sleep (input `now2`), `request_delay` redrawn (input `draw`, uniform
on [1.5, 2.5]). -/
def rlStep (st : RLState) (now2 draw : ℚ) : RLState :=
  { last_request := now2, request_delay := draw }

/-! ### Helper lemmas -/

/-- Appending to a nonempty string never yields the empty string. -/
theorem str_append_ne_empty (s t : String) (h : s.data ≠ []) : s ++ t ≠ "" := by
  obtain ⟨a⟩ := s
  obtain ⟨b⟩ := t
  intro he
  have hd : a ++ b = [] := congrArg String.data he
  rcases a with _ | ⟨c, cs⟩
  · exact h rfl
  · simp at hd

/-- A catch whose handler always succeeds always succeeds. -/
theorem pyTryCatch_ok {α : Type} (b : Except PyExc α) (h : PyExc → Except PyExc α)
    (hh : ∀ e, ∃ r, h e = .ok r) : ∃ r, pyTryCatch b h = .ok r := by
  cases b with
  | ok a => exact ⟨a, rfl⟩
  | error e => exact hh e

/-- The shape invariant of a `details` result pair: populated with the
empty error string, or absent with a nonempty error message. -/
def goodPair (r : Option DDict × String) : Prop :=
  (r.1.isSome ∧ r.2 = "") ∨ (r.1 = none ∧ r.2 ≠ "")

theorem detailsHandler_good (mirror : String → MirrorResp) (link : String) (e : PyExc) :
    ∃ r, detailsHandler mirror link e = .ok r ∧ goodPair r := by
  cases e with
  | extractor msg =>
    by_cases hs : strContains msg "Sign in" = true
    · simp only [detailsHandler, hs, if_true]
      cases hg : getFromInvidious mirror link with
      | some fb => exact ⟨_, rfl, Or.inl ⟨rfl, rfl⟩⟩
      | none => exact ⟨_, rfl, Or.inr ⟨rfl, str_append_ne_empty _ _ (by decide)⟩⟩
    · simp only [detailsHandler, hs, if_false]
      exact ⟨_, rfl, Or.inr ⟨rfl, str_append_ne_empty _ _ (by decide)⟩⟩
  | general msg =>
    exact ⟨_, rfl, Or.inr ⟨rfl, str_append_ne_empty _ _ (by decide)⟩⟩

theorem ydlAttempt_cases (o : YdlOutcome) :
    (∃ r, ydlAttempt o = .ok r ∧ goodPair r) ∨ (∃ e, ydlAttempt o = .error e) := by
  cases o with
  | raises e => exact Or.inr ⟨e, rfl⟩
  | info i =>
    cases i with
    | none => exact Or.inr ⟨_, rfl⟩
    | some i =>
      cases hy : ydlEntry i with
      | error e => exact Or.inr ⟨e, by simp only [ydlAttempt, hy]⟩
      | ok e =>
        exact Or.inl ⟨(some (mapYdl e), ""),
          by simp only [ydlAttempt, hy], Or.inl ⟨rfl, rfl⟩⟩

theorem detailsRun_good (env : DetailsEnv) (link : String) :
    ∃ r, detailsRun env link = .ok r ∧ goodPair r := by
  have hcore : ∃ r, detailsCore env link = .ok r ∧ goodPair r := by
    unfold detailsCore
    cases hp : primaryAttempt (env.search link) with
    | some d => exact ⟨(some d, ""), rfl, Or.inl ⟨rfl, rfl⟩⟩
    | none =>
      rcases ydlAttempt_cases (env.ydl link) with ⟨r, hr, hg⟩ | ⟨e, he⟩
      · exact ⟨r, by rw [hr]; rfl, hg⟩
      · obtain ⟨r, hr2, hg⟩ := detailsHandler_good env.mirror link e
        exact ⟨r, by rw [he]; exact hr2, hg⟩
  obtain ⟨r, hr, hg⟩ := hcore
  exact ⟨r, by unfold detailsRun; rw [hr]; rfl, hg⟩

/-! ### Claim theorems -/

/-- Claim C2: for every input link and videoid flag, `details` returns
exactly one of (populated result, empty error) or (absent result,
nonempty error) — never a mixed pair. -/
theorem details_result_exclusive (env : DetailsEnv) (link : String) (videoid : Bool) :
    ∃ r, details env link videoid = Except.ok r ∧
      ((r.1.isSome ∧ r.2 = "") ∨ (r.1 = none ∧ r.2 ≠ "")) := by
  obtain ⟨r, hr, hg⟩ := detailsRun_good env (normalizeLink link videoid)
  exact ⟨r, hr, hg⟩

/-- Claim C3: the read-path operations `details`, `video` and `playlist`
never let an exception escape (they always return a value), while
`download` only ever terminates with a value or with a raised exception
whose message is the descriptive `Download failed:` one — and a failing
stage (here: the default-audio extraction) makes it raise exactly that. -/
theorem read_ops_never_raise_download_raises :
    (∀ (env : DetailsEnv) (link : String) (videoid : Bool),
        ∃ r, details env link videoid = Except.ok r) ∧
    (∀ (env : VideoEnv) (link : String) (videoid : Bool),
        ∃ r, video env link videoid = Except.ok r) ∧
    (∀ (env : PlaylistEnv) (link : String) (limit : Nat) (uid : Int) (videoid : Bool),
        ∃ r, playlist env link limit uid videoid = Except.ok r) ∧
    (∀ (env : DownloadEnv) (link : String) (vf vid sa sv : Bool) (fid title : Option String),
        (∃ r, download env link vf vid sa sv fid title = Except.ok r) ∨
        (∃ msg, download env link vf vid sa sv fid title =
            Except.error (PyExc.general ("Download failed: " ++ msg)))) ∧
    (∀ (env : DownloadEnv) (link : String) (vid : Bool) (fid title : Option String)
        (e : PyExc),
        env.extract true (normalizeLink link vid) = Except.error e →
        download env link false vid false false fid title =
          Except.error (PyExc.general ("Download failed: " ++ e.msg))) := by
  refine ⟨?_, ?_, ?_, ?_, ?_⟩
  · intro env link videoid
    obtain ⟨r, hr, _⟩ := detailsRun_good env (normalizeLink link videoid)
    exact ⟨r, hr⟩
  · intro env link videoid
    exact pyTryCatch_ok _ _ (fun e => ⟨_, rfl⟩)
  · intro env link limit uid videoid
    exact pyTryCatch_ok _ _ (fun e => ⟨_, rfl⟩)
  · intro env link vf vid sa sv fid title
    unfold download
    cases hd : downloadRun env (normalizeLink link vid) vf sa sv title with
    | ok r => exact Or.inl ⟨r, rfl⟩
    | error e => exact Or.inr ⟨e.msg, rfl⟩
  · intro env link vid fid title e he
    unfold download downloadRun
    simp only [Bool.false_eq_true, if_false, he]
    rfl

/-- Mirrors are tried in order; the loop result is absent when no mirror
yields a usable video entry. -/
theorem invidiousLoop_none (resp : String → MirrorResp) (query : String)
    (L : List String) (h : ∀ b ∈ L, usableVideo (resp (mirrorUrl b query)) = none) :
    invidiousLoop resp query L = none := by
  induction L with
  | nil => rfl
  | cons b rest ih =>
    unfold invidiousLoop
    rw [h b (List.mem_cons_self b rest)]
    exact ih (fun b2 hb2 => h b2 (List.mem_cons_of_mem b hb2))

/-- The first mirror with a usable entry determines the loop result. -/
theorem invidiousLoop_first (resp : String → MirrorResp) (query : String)
    (l1 : List String) (b : String) (l2 : List String) (v : IEntry)
    (h1 : ∀ b2 ∈ l1, usableVideo (resp (mirrorUrl b2 query)) = none)
    (h2 : usableVideo (resp (mirrorUrl b query)) = some v) :
    invidiousLoop resp query (l1 ++ b :: l2) = some (mapIEntry v) := by
  induction l1 with
  | nil =>
    rw [List.nil_append]
    simp only [invidiousLoop]
    rw [h2]
  | cons c cs ih =>
    rw [List.cons_append]
    simp only [invidiousLoop]
    rw [h1 c (List.mem_cons_self c cs)]
    exact ih (fun b2 hb2 => h1 b2 (List.mem_cons_of_mem c hb2))

/-- Claim C7: the proxy fallback client walks the fixed mirror list in
order, returns the mapping of the first usable video entry of the first
mirror yielding one (thumbnail synthesized from the ID by the fixed
template), skips erroring or useless mirrors, and returns absent when all
mirrors fail. -/
theorem invidious_first_usable_mirror (resp : String → MirrorResp) (query : String) :
    ((∀ b ∈ invidious_instances, usableVideo (resp (mirrorUrl b query)) = none) →
        getFromInvidious resp query = none) ∧
    (∀ (l1 : List String) (b : String) (l2 : List String) (v : IEntry),
        invidious_instances = l1 ++ b :: l2 →
        (∀ b2 ∈ l1, usableVideo (resp (mirrorUrl b2 query)) = none) →
        usableVideo (resp (mirrorUrl b query)) = some v →
        getFromInvidious resp query = some (mapIEntry v)) ∧
    (∀ v : IEntry, (mapIEntry v).thumbnail =
        "https://i.ytimg.com/vi/" ++ pyStrOfOpt v.videoId ++ "/hqdefault.jpg") := by
  refine ⟨?_, ?_, fun v => rfl⟩
  · intro h
    exact invidiousLoop_none resp query invidious_instances h
  · intro l1 b l2 v hsplit h1 h2
    unfold getFromInvidious
    rw [hsplit]
    exact invidiousLoop_first resp query l1 b l2 v h1 h2

/-- A usable second mirror after a failing first mirror: concrete run of
the fallback client. -/
def entW : IEntry :=
  { type := some "video", videoId := some "abcdefghijk",
    title := some "Proxy Title", lengthSeconds := some 212 }

def respW : String → MirrorResp := fun u =>
  if u = mirrorUrl "https://inv.odyssey346.dev" "query" then .ok (some [entW]) else .err

theorem invidious_first_usable_mirror_witness :
    getFromInvidious respW "query" = some (mapIEntry entW) := by
  refine (invidious_first_usable_mirror respW "query").2.1
    ["https://yewtu.be"] "https://inv.odyssey346.dev"
    ["https://invidious.flokinet.to", "https://vid.puffyan.us", "https://inv.tux.pizza"]
    entW rfl ?_ ?_
  · intro b hb
    rw [List.mem_singleton] at hb
    subst hb
    decide
  · decide

/-- A usable mirror entry for the `details` proxy-fallback scenarios. -/
def entC1 : IEntry :=
  { type := some "video", videoId := some "proxyvid001",
    title := some "Proxy Title", lengthSeconds := some 185 }

/-- Primary raises, the secondary fails with a generic (non-extractor)
exception, and the first mirror would be usable for the query. -/
def envProxyCex : DetailsEnv :=
  { search := fun _ => .raises (.general "primary blocked"),
    ydl := fun _ => .raises (.general "secondary boom"),
    mirror := fun u =>
      if u = mirrorUrl "https://yewtu.be" "L" then .ok (some [entC1]) else .err }

/-- Claim C1 counterexample: a link whose primary lookup fails and whose
secondary extraction fails — with a generic exception — while a proxy
mirror does hold a usable video result; `details` nevertheless returns
the error tuple, because the proxy tier is only consulted from the
ExtractorError handler when the message mentions a sign-in gate. -/
theorem details_proxy_skipped_on_generic_failure_cex :
    primaryAttempt (envProxyCex.search "L") = none ∧
    getFromInvidious envProxyCex.mirror "L" = some (mapIEntry entC1) ∧
    details envProxyCex "L" false = Except.ok (none, "Error: secondary boom") := by
  refine ⟨rfl, by decide, rfl⟩

/-- Claim C1 (amended): when the primary lookup fails and the secondary
extraction raises an extractor-specific error whose message contains the
sign-in indicator, a usable proxy mirror result is returned mapped into
the VideoRef shape with the empty error string. -/
theorem details_signin_proxy_fallback (env : DetailsEnv) (link : String) (videoid : Bool)
    (msg : String) (fb : IMapped)
    (hp : primaryAttempt (env.search (normalizeLink link videoid)) = none)
    (hy : env.ydl (normalizeLink link videoid) = YdlOutcome.raises (PyExc.extractor msg))
    (hs : strContains msg "Sign in" = true)
    (hf : getFromInvidious env.mirror (normalizeLink link videoid) = some fb) :
    details env link videoid = Except.ok (some (mapFallback fb), "") := by
  have h1 : detailsCore env (normalizeLink link videoid) =
      detailsHandler env.mirror (normalizeLink link videoid) (PyExc.extractor msg) := by
    unfold detailsCore
    rw [hp, hy]
    rfl
  have h2 : detailsHandler env.mirror (normalizeLink link videoid) (PyExc.extractor msg) =
      Except.ok (some (mapFallback fb), "") := by
    simp [detailsHandler, hs, hf]
  unfold details detailsRun
  rw [h1, h2]
  rfl

/-- Primary raises, the secondary raises a sign-in ExtractorError, and
the first mirror is usable for the normalized link. -/
def envSignW : DetailsEnv :=
  { search := fun _ => .raises (.general "blocked"),
    ydl := fun _ => .raises (.extractor "ERROR: Sign in to confirm your age"),
    mirror := fun u =>
      if u = mirrorUrl "https://yewtu.be" "https://youtu.be/abcdefghijk" then
        .ok (some [entC1])
      else .err }

theorem details_signin_proxy_fallback_witness :
    details envSignW "https://youtu.be/abcdefghijk" false =
      Except.ok (some (mapFallback (mapIEntry entC1)), "") :=
  details_signin_proxy_fallback envSignW "https://youtu.be/abcdefghijk" false
    "ERROR: Sign in to confirm your age" (mapIEntry entC1)
    rfl rfl (by decide) (by decide)

/-- A primary search result carrying a set duration string. -/
def resC4 : SearchResult :=
  { title := "Some Song", duration := some "4:20",
    thumbnails := ["https://i.ytimg.com/vi/abcdefghijk/hq720.jpg?sqp=xyz"],
    id := "abcdefghijk", link := "https://www.youtube.com/watch?v=abcdefghijk" }

def envC4 : DetailsEnv :=
  { search := fun _ => .results [resC4],
    ydl := fun _ => .raises (.general "secondary failed"),
    mirror := fun _ => .err }

/-- The same primary result with an unset duration. -/
def resC4n : SearchResult := { resC4 with duration := none }

def envC4n : DetailsEnv := { envC4 with search := fun _ => .results [resC4n] }

/-- What the primary path returns for `resC4n`: the raw unset duration,
zero seconds, the thumbnail URL cut at its first question mark. -/
def dictC4n : DDict :=
  { title := "Some Song", duration := .str none, duration_sec := 0,
    thumbnail := "https://i.ytimg.com/vi/abcdefghijk/hq720.jpg",
    id := some "abcdefghijk", url := "https://www.youtube.com/watch?v=abcdefghijk" }

/-- Claim C4, the code evaluated at the failing input: the primary lookup
returns a result whose duration string is set to 4:20, but because
`time_to_seconds` is an undefined name in the module, building the result
dictionary raises NameError, the exception is swallowed and `details`
falls through to the (here failing) yt-dlp tier — instead of returning
the parsed 260 seconds.  With an unset (None) duration the primary path
does succeed and returns duration_sec 0 as the claim states. -/
theorem details_primary_duration_name_error :
    resC4.duration = some "4:20" ∧
    details envC4 "https://www.youtube.com/watch?v=abcdefghijk" false =
      Except.ok (none, "Error: secondary failed") ∧
    details envC4n "https://www.youtube.com/watch?v=abcdefghijk" false =
      Except.ok (some dictC4n, "") := by
  refine ⟨rfl, rfl, rfl⟩

/-- Snippet-mode scenario: the expected output file exists, the network
downloader succeeds. -/
def envC5 : DownloadEnv :=
  { extract := fun _ _ => .ok "downloads/t.mp4",
    exists1 := fun _ => true,
    run := fun _ => .ok () }

/-- Claim C5 counterexample: in the explicit video-snippet mode the
expected output file downloads/t.mp4 already exists (the existence oracle
answers true for every path), yet `download` still performs the network
download — the second component of the result records that
`ydl.download` ran. -/
theorem download_songvideo_ignores_existing_cex :
    envC5.exists1 "downloads/t.mp4" = true ∧
    download envC5 "L" false false false true none (some "t") =
      Except.ok (DlRet.plain "downloads/t.mp4", true) :=
  ⟨rfl, rfl⟩

/-- Claim C5 (amended): in the full-video and default-audio modes a
pre-existing output file short-circuits the download — the result is the
existing path with the network flag false; the snippet modes (see the
counterexample) always download. -/
theorem download_idempotent_video_audio_modes (env : DownloadEnv) (link : String)
    (videoid : Bool) (fid title : Option String) (path : String) :
    (env.extract false (normalizeLink link videoid) = Except.ok path →
      env.exists1 path = true →
      download env link true videoid false false fid title =
        Except.ok (DlRet.withFlag path true, false)) ∧
    (env.extract true (normalizeLink link videoid) = Except.ok path →
      env.exists1 (splitextBase path ++ ".mp3") = true →
      download env link false videoid false false fid title =
        Except.ok (DlRet.withFlag (splitextBase path ++ ".mp3") true, false)) := by
  constructor
  · intro he hx
    unfold download downloadRun
    simp [he, hx, pyTryCatch]
  · intro he hx
    unfold download downloadRun
    simp [he, hx, pyTryCatch]

/-- Default-audio scenario: the mp3 already exists and the network is
down, so a successful result proves no download was attempted. -/
def envC5W : DownloadEnv :=
  { extract := fun _ _ => .ok "downloads/abcdefghijk.webm",
    exists1 := fun _ => true,
    run := fun _ => .error (.general "network unavailable") }

theorem download_idempotent_video_audio_modes_witness :
    download envC5W "L" false false false false none none =
      Except.ok (DlRet.withFlag (splitextBase "downloads/abcdefghijk.webm" ++ ".mp3") true,
        false) :=
  (download_idempotent_video_audio_modes envC5W "L" false none none
    "downloads/abcdefghijk.webm").2 rfl rfl

/-- A kept ID comes from an entry whose id field holds exactly that
nonempty string. -/
theorem pickId_some (a : PEntry) (s : String) (h : pickId a = some s) :
    a.id = some s ∧ s ≠ "" := by
  obtain ⟨oid⟩ := a
  cases oid with
  | none => exact absurd h (by simp [pickId])
  | some str =>
    by_cases hstr : str = ""
    · rw [show pickId ⟨some str⟩ = none from by simp [pickId, hstr]] at h
      exact absurd h (by simp)
    · rw [show pickId ⟨some str⟩ = some str from by simp [pickId, hstr]] at h
      obtain rfl := Option.some.inj h
      exact ⟨rfl, hstr⟩

/-- Claim C6: `playlist` returns the ordered IDs of the extracted entries
with ID-less (or empty-ID) entries skipped, at most `limit` of them when
the flat extractor honors its `playlistend` cap, and the empty list on
any failure. -/
theorem playlist_ids_bounded_ordered (env : PlaylistEnv) (link : String) (limit : Nat)
    (uid : Int) (videoid : Bool) :
    (∀ e, env.extract (normalizePlaylistLink link videoid) limit = Except.error e →
        playlist env link limit uid videoid = Except.ok []) ∧
    (env.extract (normalizePlaylistLink link videoid) limit = Except.ok none →
        playlist env link limit uid videoid = Except.ok []) ∧
    (env.extract (normalizePlaylistLink link videoid) limit = Except.ok (some ⟨none⟩) →
        playlist env link limit uid videoid = Except.ok []) ∧
    (∀ es, env.extract (normalizePlaylistLink link videoid) limit =
          Except.ok (some ⟨some es⟩) →
        es.length ≤ limit →
        playlist env link limit uid videoid = Except.ok (entryIds es) ∧
        (entryIds es).length ≤ limit ∧
        (∀ s ∈ entryIds es, ∃ a ∈ es, a.id = some s ∧ s ≠ "")) := by
  refine ⟨?_, ?_, ?_, ?_⟩
  · intro e he
    unfold playlist playlistRun
    rw [he]
    rfl
  · intro he
    unfold playlist playlistRun
    rw [he]
    rfl
  · intro he
    unfold playlist playlistRun
    rw [he]
    rfl
  · intro es he hlen
    refine ⟨?_, ?_, ?_⟩
    · unfold playlist playlistRun
      rw [he]
      cases es with
      | nil => rfl
      | cons a as => rfl
    · exact le_trans (List.length_filterMap_le pickId es) hlen
    · intro s hs
      obtain ⟨a, ha, hf⟩ := List.mem_filterMap.mp hs
      obtain ⟨hid, hne⟩ := pickId_some a s hf
      exact ⟨a, ha, hid, hne⟩

/-- A playlist extraction with one ID-less entry and one empty-string ID
among the kept ones. -/
def esC6 : List PEntry := [⟨some "aaa"⟩, ⟨none⟩, ⟨some ""⟩, ⟨some "bbb"⟩]

def envC6 : PlaylistEnv := { extract := fun _ _ => .ok (some ⟨some esC6⟩) }

theorem playlist_ids_bounded_ordered_witness :
    playlist envC6 "L" 4 0 false = Except.ok (entryIds esC6) ∧
    (entryIds esC6).length ≤ 4 := by
  obtain ⟨h1, h2, _⟩ :=
    (playlist_ids_bounded_ordered envC6 "L" 4 0 false).2.2.2 esC6 rfl (by decide)
  exact ⟨h1, h2⟩

/-- A playlist-extraction oracle that reports the link it was consulted
with as the single entry ID. -/
def envC8 : PlaylistEnv :=
  { extract := fun l _ => .ok (some ⟨some [⟨some l⟩]⟩) }

/-- Claim C8 counterexample: with the videoid flag set, `playlist` hands
its extractor the playlist-base-prefixed link, not the watch-base
(base_url) one the claim asserts for all four operations. -/
theorem playlist_uses_playlist_base_cex :
    playlist envC8 "abc" 5 0 true =
      Except.ok ["https://youtube.com/playlist?list=abc"] ∧
    normalizePlaylistLink "abc" true ≠ stripAmp (base_url ++ "abc") := by
  exact ⟨rfl, by decide⟩

/-- Claim C8 (amended): with the videoid flag set, `details`, `video` and
`download` run their cores on the watch-base-prefixed link stripped at
the first ampersand, while `playlist` uses the playlist-base prefix; the
strip drops everything from the first ampersand on. -/
theorem videoid_normalization_amended (id : String) (envD : DetailsEnv) (envV : VideoEnv)
    (envP : PlaylistEnv) (envDl : DownloadEnv) (limit : Nat) (uid : Int)
    (vf sa sv : Bool) (fid title : Option String) :
    details envD id true = detailsRun envD (stripAmp (base_url ++ id)) ∧
    video envV id true = videoRun envV (stripAmp (base_url ++ id)) ∧
    download envDl id vf true sa sv fid title =
      pyTryCatch (downloadRun envDl (stripAmp (base_url ++ id)) vf sa sv title)
        (fun e => Except.error (PyExc.general ("Download failed: " ++ e.msg))) ∧
    playlist envP id limit uid true =
      playlistRun envP (stripAmp (playlist_base ++ id)) limit ∧
    stripAmp "abcdefghijk&pp=ygUEdGVzdA" = "abcdefghijk" :=
  ⟨rfl, rfl, rfl, rfl, by decide⟩

/-- Claim C9: `exists` is pure validation — it is exactly the boolean
search of the canonical URL regex over the link (no oracle input at all),
true on the shortlink/watch/embed examples, false on a non-YouTube URL. -/
theorem existsLink_pure_regex :
    (∀ link : String, existsLink link false = urlRegexSearch link) ∧
    existsLink "https://youtu.be/dQw4w9WgXcQ" false = true ∧
    existsLink "https://example.com/x" false = false ∧
    urlRegexSearch "https://www.youtube.com/watch?v=dQw4w9WgXcQ" = true ∧
    urlRegexSearch "https://www.youtube.com/embed/dQw4w9WgXcQ" = true :=
  ⟨fun _ => rfl, by decide, by decide, by decide, by decide⟩

/-- Claim C10: the caller of the rate limiter resumes no earlier than the
recorded start of the previous call plus the current delay; the new state
records the post-sleep clock reading and the fresh draw; hence a
following call resumes at least `draw` (and so at least 1.5 seconds,
since the draw is taken from [1.5, 2.5]) after this call records its
start. -/
theorem rate_limit_spacing (st : RLState) (now now2 draw now3 : ℚ)
    (h1 : 3/2 ≤ draw) (h2 : draw ≤ 5/2) :
    st.last_request + st.request_delay ≤ rlResume st now ∧
    (rlStep st now2 draw).last_request = now2 ∧
    (rlStep st now2 draw).request_delay = draw ∧
    now2 + draw ≤ rlResume (rlStep st now2 draw) now3 ∧
    now2 + 3/2 ≤ rlResume (rlStep st now2 draw) now3 ∧
    3/2 ≤ (rlStep st now2 draw).request_delay ∧
    (rlStep st now2 draw).request_delay ≤ 5/2 := by
  have key : ∀ (s : RLState) (t : ℚ), s.last_request + s.request_delay ≤ rlResume s t := by
    intro s t
    unfold rlResume rlSleep
    split <;> linarith
  have kstep : now2 + draw ≤ rlResume (rlStep st now2 draw) now3 :=
    key (rlStep st now2 draw) now3
  exact ⟨key st now, rfl, rfl, kstep, by linarith, h1, h2⟩

theorem rate_limit_spacing_witness :
    (⟨0, 2⟩ : RLState).last_request + (⟨0, 2⟩ : RLState).request_delay ≤
      rlResume ⟨0, 2⟩ 1 ∧
    (rlStep ⟨0, 2⟩ 2 (9/5)).last_request = 2 ∧
    (rlStep ⟨0, 2⟩ 2 (9/5)).request_delay = 9/5 ∧
    2 + 9/5 ≤ rlResume (rlStep ⟨0, 2⟩ 2 (9/5)) 3 ∧
    2 + 3/2 ≤ rlResume (rlStep ⟨0, 2⟩ 2 (9/5)) 3 ∧
    3/2 ≤ (rlStep ⟨0, 2⟩ 2 (9/5)).request_delay ∧
    (rlStep ⟨0, 2⟩ 2 (9/5)).request_delay ≤ 5/2 :=
  rate_limit_spacing ⟨0, 2⟩ 1 2 (9/5) 3 (by norm_num) (by norm_num)

/-- A download environment whose every network stage fails. -/
def envC3 : DownloadEnv :=
  { extract := fun _ _ => .error (.general "net down"),
    exists1 := fun _ => false,
    run := fun _ => .error (.general "net down") }

theorem read_ops_never_raise_download_raises_witness :
    download envC3 "L" false false false false none none =
      Except.error (PyExc.general ("Download failed: " ++ "net down")) :=
  read_ops_never_raise_download_raises.2.2.2.2 envC3 "L" false none none
    (PyExc.general "net down") rfl

end AviaxYoutube
